import Mathlib

/-!
Verification of the photogrammetry-pipeline job-orchestration flow.

The browser client (`src/frontend/static/js/upload.js`) is embedded as
pure functions over explicit state: the polling loop of
`UploadManager.trackReconstruction` becomes a Boolean activity predicate
over a trace of status responses, `UploadManager.showResults` becomes a
function producing a list of UI actions, `Viewer3D.loadModel`'s format
dispatch becomes a total function on the output path, and
`UploadManager.checkGPUStatus` and `UploadManager.updateUploadStatus`
become functions of the data they read.  The benchmark script's polling
loop (`src/benchmark.sh`, `run_benchmark`) is embedded as a fuel-indexed
recursion over a stream of status strings.  The backend job state
machine (Job Store / Reconstruction Service) has no source under the
repository snapshot, so it is modelled from the specification text and
marked as such.
-/

namespace Photogrammetry

/-- Per-tool entry of a `/api/status/{jobId}` response, as read by
`upload.js`: `data.status`, `data.progress`, `data.output`,
`data.error`, and the three metric fields `data.metrics?.points`,
`data.metrics?.processingTime`, `data.metrics?.memoryUsed`.  A metric
field is `none` when `metrics` is absent or the field is absent. -/
structure ToolData where
  status : String
  progress : Int
  output : String
  error : Option String
  metricsPoints : Option String
  metricsProcessingTime : Option String
  metricsMemoryUsed : Option String
deriving DecidableEq

/-- A status snapshot: the `tools` object of the response, as the
association list produced by `Object.entries(status.tools)`. -/
structure JobSnapshot where
  tools : List (String × ToolData)
deriving DecidableEq

/-- `upload.js` line 203: `Object.values(status.tools).every(tool =>
tool.status === 'completed' || tool.status === 'failed')`. -/
def allComplete (st : JobSnapshot) : Bool :=
  st.tools.all (fun p => p.2.status == "completed" || p.2.status == "failed")

/-- The environment of one polling run: `jobState n` is the job's tools
state at tick `n`, and `delivered n` tells whether the fetch and JSON
parse of tick `n` succeed.  The response the poller sees at tick `n` is
`some (jobState n)` on success and `none` when the request throws. -/
def responseAt (jobState : Nat → JobSnapshot) (delivered : Nat → Bool)
    (n : Nat) : Option JobSnapshot :=
  if delivered n then some (jobState n) else none

/-- State of the `setInterval` loop of `trackReconstruction`:
`pollerActive r n = true` iff the interval is still installed at the
start of tick `n`, so a status request is issued at exactly the ticks
where it holds.  Per the source, a tick clears the interval when the
response is an error (`catch` branch, `upload.js` lines 212-215) or
when the snapshot is all-terminal (lines 203-210); otherwise the loop
continues. -/
def pollerActive (r : Nat → Option JobSnapshot) : Nat → Bool
  | 0 => true
  | n + 1 =>
    pollerActive r n &&
      match r n with
      | none => false
      | some st => !(allComplete st)

/-- Claim-level property for C1: whenever the poller stops (goes from
active to inactive across tick `n`), every tool of the job was already
terminal at that tick. -/
def stopsOnlyOnTerminalState (jobState : Nat → JobSnapshot)
    (delivered : Nat → Bool) : Prop :=
  ∀ n, pollerActive (responseAt jobState delivered) n = true →
    pollerActive (responseAt jobState delivered) (n + 1) = false →
    allComplete (jobState n) = true

/-- Claim-level property for C3: a tick whose request errors leaves the
polling loop alive, so the next tick still issues a request. -/
def pollerRetriesSilently (r : Nat → Option JobSnapshot) : Prop :=
  ∀ n, pollerActive r n = true → r n = none →
    pollerActive r (n + 1) = true

/-- A concrete snapshot with one tool still running. -/
def runningSnapshot : JobSnapshot :=
  ⟨[("COLMAP", { status := "running", progress := 50, output := "",
                 error := none, metricsPoints := none,
                 metricsProcessingTime := none,
                 metricsMemoryUsed := none })]⟩

/-- A concrete snapshot with one tool completed. -/
def completedSnapshot : JobSnapshot :=
  ⟨[("COLMAP", { status := "completed", progress := 100,
                 output := "model.ply", error := none,
                 metricsPoints := some "12345",
                 metricsProcessingTime := some "10m",
                 metricsMemoryUsed := some "2GB" })]⟩

/-- A snapshot tracking zero tools. -/
def emptySnapshot : JobSnapshot := ⟨[]⟩

/-- A concrete snapshot with one tool failed, carrying an error text. -/
def failedSnapshot : JobSnapshot :=
  ⟨[("COLMAP", { status := "failed", progress := 80, output := "",
                 error := some "boom", metricsPoints := none,
                 metricsProcessingTime := none,
                 metricsMemoryUsed := none })]⟩

/-- JavaScript `a || b` for a possibly-absent string `a`: `undefined`
and the empty string are falsy, any other string is returned as is.
Used for `data.metrics?.points || 'N/A'` and friends. -/
def jsOr (v : Option String) (dflt : String) : String :=
  match v with
  | none => dflt
  | some s => if s == "" then dflt else s

/-- One DOM/UI effect of `UploadManager.showResults`. -/
inductive UIAction where
  | showSection : UIAction
  | loadModel (tool output : String) : UIAction
  | setMetric (elemId value : String) : UIAction
deriving DecidableEq

/-- The UI actions `showResults` emits for one `[tool, data]` entry:
nothing unless `data.status === 'completed'`; for a completed tool it
calls `viewer3D.loadModel(tool, data.output)` and writes the three
metric text fields with `|| 'N/A'` fallbacks (`upload.js` 222-232). -/
def showResultsEntry (p : String × ToolData) : List UIAction :=
  if p.2.status == "completed" then
    [UIAction.loadModel p.1 p.2.output,
     UIAction.setMetric ("points-" ++ p.1) (jsOr p.2.metricsPoints "N/A"),
     UIAction.setMetric ("time-" ++ p.1)
       (jsOr p.2.metricsProcessingTime "N/A"),
     UIAction.setMetric ("memory-" ++ p.1) (jsOr p.2.metricsMemoryUsed "N/A")]
  else []

/-- `UploadManager.showResults(status)`: unhides the results section,
then iterates `Object.entries(status.tools)` emitting the per-entry
actions. -/
def showResults (st : JobSnapshot) : List UIAction :=
  UIAction.showSection :: st.tools.flatMap showResultsEntry

/-- Every text string the client writes on the tick that observes a
terminal snapshot: the per-tool `statusText.textContent = data.status`
writes of the polling tick (`upload.js` 194-200) followed by the texts
carried by the `showResults` actions (output path handed to the viewer
and the three metric values). -/
def terminalTickTexts (st : JobSnapshot) : List String :=
  st.tools.map (fun p => p.2.status) ++
    (showResults st).flatMap (fun a =>
      match a with
      | UIAction.showSection => []
      | UIAction.loadModel _ output => [output]
      | UIAction.setMetric _ value => [value])

/-- Claim-level property for C4: on a terminal snapshot, each failed
tool's error text appears verbatim among the texts the client writes. -/
def surfacesFailedErrors (st : JobSnapshot) : Prop :=
  ∀ p ∈ st.tools, p.2.status = "failed" →
    ∀ e, p.2.error = some e → e ∈ terminalTickTexts st

/-- JavaScript `String.prototype.endsWith`, modelled over the character
list of the string. -/
def strEndsWith (s suffix : String) : Bool :=
  suffix.data.isSuffixOf s.data

/-- Branch taken by `Viewer3D.loadModel` when dispatching on the output
path's extension (`upload.js` 463-470). -/
inductive LoadDispatch where
  | plyLoader : LoadDispatch
  | objLoader : LoadDispatch
  | unsupportedFormat : LoadDispatch
deriving DecidableEq

/-- `Viewer3D.loadModel`'s format dispatch: `.ply` goes to `loadPLY`,
`.obj` goes to `loadOBJ`, anything else throws
`'Unsupported file format'`. -/
def loadModelDispatch (outputPath : String) : LoadDispatch :=
  if strEndsWith outputPath ".ply" then LoadDispatch.plyLoader
  else if strEndsWith outputPath ".obj" then LoadDispatch.objLoader
  else LoadDispatch.unsupportedFormat

/-- Response of the GPU-status endpoint as the client reads it:
`available` (boolean), optional `name`, plus whatever other fields the
response carries (never read by the client). -/
structure GpuStatusResponse where
  available : Bool
  name : Option String
  extraFields : List (String × String)
deriving DecidableEq

/-- Rendering of a possibly-absent string inside a JS template
literal: `undefined` stringifies to `"undefined"`. -/
def jsTemplateStr : Option String → String
  | none => "undefined"
  | some s => s

/-- Text written by `UploadManager.checkGPUStatus` into the GPU status
label (`upload.js` 269-275). -/
def checkGPUStatusText (st : GpuStatusResponse) : String :=
  if st.available then "GPU: " ++ jsTemplateStr st.name
  else "GPU: CPU Mode"

/-- JavaScript truthiness of `this.selectedDataset` (`null` or a
dataset name): `null` and the empty string are falsy. -/
def jsTruthyStr : Option String → Bool
  | none => false
  | some s => !(s == "")

/-- `this.pond?.getFiles().length > 0`: `this.pond` may be `null`
(optional chaining makes the comparison `undefined > 0`, i.e. false);
otherwise the FilePond file count is compared with 0. -/
def pondHasFiles : Option Nat → Bool
  | none => false
  | some k => decide (0 < k)

/-- `upload.js` line 130: `const hasImages =
this.pond?.getFiles().length > 0 || this.selectedDataset`. -/
def hasImages (pondFiles : Option Nat) (selectedDataset : Option String) :
    Bool :=
  pondHasFiles pondFiles || jsTruthyStr selectedDataset

/-- `upload.js` line 134: `startButton.disabled = !hasImages ||
selectedTools.length === 0`, as computed by
`UploadManager.updateUploadStatus`. -/
def startDisabled (pondFiles : Option Nat) (selectedDataset : Option String)
    (selectedToolCount : Nat) : Bool :=
  !(hasImages pondFiles selectedDataset) || (selectedToolCount == 0)

/-- `src/benchmark.sh`: a status string is terminal when it is
`completed` or `failed` (the loop condition of `run_benchmark`). -/
def isTerminalStr (s : String) : Bool :=
  s == "completed" || s == "failed"

/-- The polling loop of `run_benchmark` (`benchmark.sh` 37-44):
starting at poll index `n`, repeatedly fetch `/status/$job_id` and
record the parsed `status`, until the recorded status is terminal.
`resp k` is the status string parsed from the `k`-th poll.  The
recursion is indexed by fuel; `none` means the fuel ran out before a
terminal status was observed, `some s` means the loop exited with `s`
recorded. -/
def runPoll (resp : Nat → String) : Nat → Nat → Option String
  | 0, _ => none
  | fuel + 1, n =>
    if isTerminalStr (resp n) then some (resp n)
    else runPoll resp fuel (n + 1)

/-- Modelled from the spec: the backend Job Store / Reconstruction
Service implementation is not part of the repository snapshot (only its
clients are), so the Job `status` field is taken from spec section 3:
one of `queued`, `running`, `completed`, `failed`. -/
inductive JStatus where
  | queued : JStatus
  | running : JStatus
  | completed : JStatus
  | failed : JStatus
deriving DecidableEq

/-- Modelled from the spec: the Job state machine of spec section 4.3,
`queued -> running -> {completed, failed}`, with `queued -> failed`
and `running -> failed` also allowed; these are exactly the permitted
status changes. -/
def statusEdge : JStatus → JStatus → Bool
  | JStatus.queued, JStatus.running => true
  | JStatus.queued, JStatus.failed => true
  | JStatus.running, JStatus.completed => true
  | JStatus.running, JStatus.failed => true
  | _, _ => false

/-- Terminal job statuses (`completed` or `failed`). -/
def isTerminalJ : JStatus → Bool
  | JStatus.completed => true
  | JStatus.failed => true
  | _ => false

/-- Position of a status along the forward direction of the lifecycle;
a backward transition is one that decreases this rank. -/
def statusRank : JStatus → Nat
  | JStatus.queued => 0
  | JStatus.running => 1
  | JStatus.completed => 2
  | JStatus.failed => 2

/-- Modelled from the spec: the canonical Job record held by the Job
Store (spec section 3), restricted to the fields the claims mention. -/
structure JobRec where
  status : JStatus
  progress : Int
  output_ref : Option String
  error : Option String
deriving DecidableEq

/-- Modelled from the spec: what one atomic Job Store `update` may do
to a record between two successive `getStatus` reads (spec sections 3,
4.1, 5): either the record is unchanged, or — provided the record is
not yet terminal, since terminal states have no outgoing transitions
and terminal snapshots are idempotent — the status stays or moves along
a state-machine edge, the written progress is an integer percentage in
0..100, and progress does not decrease while the status is `running`. -/
def jobStepOk (a b : JobRec) : Prop :=
  a = b ∨
    (isTerminalJ a.status = false ∧
     (a.status = b.status ∨ statusEdge a.status b.status = true) ∧
     0 ≤ b.progress ∧ b.progress ≤ 100 ∧
     (a.status = JStatus.running → b.status = JStatus.running →
       a.progress ≤ b.progress))

instance jobStepOkDecidable (a b : JobRec) : Decidable (jobStepOk a b) := by
  unfold jobStepOk
  infer_instance

/-- Modelled from the spec: a job's observable history — the sequence
of snapshots returned by successive `getStatus` calls.  The job is
created with status `queued` and progress 0 (spec section 3,
lifecycle), and each consecutive pair of reads is related by the atomic
update discipline `jobStepOk`. -/
def validTrace (tr : Nat → JobRec) : Prop :=
  (tr 0).status = JStatus.queued ∧ (tr 0).progress = 0 ∧
    ∀ n, jobStepOk (tr n) (tr (n + 1))

/-- The trace enters a terminal state across step `n`. -/
def entersTerminal (tr : Nat → JobRec) (n : Nat) : Prop :=
  isTerminalJ (tr n).status = false ∧ isTerminalJ (tr (n + 1)).status = true

/-- Modelled from the spec: a sample observable history of one job,
`queued` at creation, then `running`, then `completed` forever. -/
def sampleTrace : Nat → JobRec
  | 0 => { status := JStatus.queued, progress := 0, output_ref := none,
           error := none }
  | 1 => { status := JStatus.running, progress := 40, output_ref := none,
           error := none }
  | _ + 2 => { status := JStatus.completed, progress := 100,
               output_ref := some "model.ply", error := none }

/-! ## Helper lemmas -/

/-- `clearInterval` is permanent: once the polling loop is inactive it
never issues a request again. -/
theorem pollerActive_stays_false (r : Nat → Option JobSnapshot) :
    ∀ n m, n ≤ m → pollerActive r n = false → pollerActive r m = false := by
  intro n m hnm hn
  have key : ∀ k, pollerActive r (n + k) = false := by
    intro k
    induction k with
    | zero => exact hn
    | succ j ih =>
      rw [Nat.add_succ]
      simp [pollerActive, ih]
  have hm : m = n + (m - n) := by omega
  rw [hm]
  exact key _

/-- If some poll from index `n + k` on observes a terminal status, the
benchmark loop started at `n` with `k + 1` units of fuel exits with a
terminal status recorded. -/
theorem runPoll_reaches_terminal (resp : Nat → String) :
    ∀ k n, isTerminalStr (resp (n + k)) = true →
      ∃ s, runPoll resp (k + 1) n = some s ∧ isTerminalStr s = true := by
  intro k
  induction k with
  | zero =>
    intro n h
    rw [Nat.add_zero] at h
    refine ⟨resp n, ?_, h⟩
    show (if isTerminalStr (resp n) = true then some (resp n)
          else runPoll resp 0 (n + 1)) = some (resp n)
    rw [h]
    simp
  | succ j ih =>
    intro n h
    cases hn : isTerminalStr (resp n) with
    | true =>
      refine ⟨resp n, ?_, hn⟩
      show (if isTerminalStr (resp n) = true then some (resp n)
            else runPoll resp (j + 1) (n + 1)) = some (resp n)
      rw [hn]
      simp
    | false =>
      have hshift : isTerminalStr (resp (n + 1 + j)) = true := by
        have harith : n + 1 + j = n + (j + 1) := by omega
        rw [harith]
        exact h
      obtain ⟨s, hs, ht⟩ := ih (n + 1) hshift
      refine ⟨s, ?_, ht⟩
      show (if isTerminalStr (resp n) = true then some (resp n)
            else runPoll resp (j + 1) (n + 1)) = some s
      rw [hn]
      simpa using hs

/-- A terminal record admits no change in one atomic update step. -/
theorem jobStep_terminal_fixed {a b : JobRec} (hstep : jobStepOk a b)
    (ht : isTerminalJ a.status = true) : b = a := by
  rcases hstep with heq | ⟨hnt, _⟩
  · exact heq.symm
  · simp [ht] at hnt

/-- State-machine edges never decrease the lifecycle rank. -/
theorem statusEdge_rank_le {x y : JStatus} (h : statusEdge x y = true) :
    statusRank x ≤ statusRank y := by
  cases x <;> cases y <;> revert h <;> decide

/-- Once a valid trace is terminal at `n`, every later read returns the
identical record. -/
theorem validTrace_terminal_frozen {tr : Nat → JobRec} (h : validTrace tr) :
    ∀ n m, n ≤ m → isTerminalJ (tr n).status = true → tr m = tr n := by
  intro n m hnm ht
  have key : ∀ k, tr (n + k) = tr n := by
    intro k
    induction k with
    | zero => rfl
    | succ j ih =>
      have hstep := h.2.2 (n + j)
      rw [ih] at hstep
      rw [Nat.add_succ]
      exact jobStep_terminal_fixed hstep ht
  have hm : m = n + (m - n) := by omega
  rw [hm]
  exact key _

/-! ## Claim theorems -/

/-- Claim C1, counterexample: the claim says the poller never stops
while a tool is still `running`.  But when the first status request
throws (the fetch is not delivered), the `catch` branch of
`trackReconstruction` clears the interval, so the poller stops at tick
1 even though the job's only tool is still `running` and no terminal
snapshot was ever observed. -/
theorem trackReconstruction_stop_without_terminal :
    ¬ stopsOnlyOnTerminalState (fun _ => runningSnapshot) (fun _ => false) := by
  intro h
  have h0 := h 0 (by decide) (by decide)
  exact absurd h0 (by decide)

/-- Claim C1, amended: assuming every status request succeeds, the
Client Poller issues one status request per tick while active, stops
exactly at the ticks whose snapshot has every tool terminal
(`completed` or `failed`) — so it never stops on a snapshot with a
`queued` or `running` tool — and it issues no further requests after
stopping. -/
theorem trackReconstruction_stops_iff_all_terminal
    (jobState : Nat → JobSnapshot) :
    pollerActive (responseAt jobState (fun _ => true)) 0 = true ∧
    (∀ n, pollerActive (responseAt jobState (fun _ => true)) (n + 1) = false ↔
      (pollerActive (responseAt jobState (fun _ => true)) n = false ∨
        allComplete (jobState n) = true)) ∧
    (∀ n m, n ≤ m →
      pollerActive (responseAt jobState (fun _ => true)) n = false →
      pollerActive (responseAt jobState (fun _ => true)) m = false) := by
  refine ⟨rfl, fun n => ?_, pollerActive_stays_false _⟩
  have hb : ∀ a b : Bool, (a && !b) = false ↔ (a = false ∨ b = true) := by
    decide
  simpa only [pollerActive, responseAt, if_pos] using
    hb (pollerActive (responseAt jobState (fun _ => true)) n)
      (allComplete (jobState n))

/-- Witness for the amended C1 theorem: on a trace whose first snapshot
is all-terminal, the poller is inactive from tick 1 on. -/
theorem trackReconstruction_stops_iff_all_terminal_witness :
    pollerActive (responseAt (fun _ => completedSnapshot) (fun _ => true)) 1 =
      false :=
  ((trackReconstruction_stops_iff_all_terminal
      (fun _ => completedSnapshot)).2.1 0).mpr (Or.inr (by decide))

/-- Claim C3, counterexample: the claim says a failed status request is
retried silently, keeping the polling loop alive.  But on a trace whose
first request throws, the `catch` branch clears the interval, so the
poller is not active at the next tick. -/
theorem trackReconstruction_error_aborts :
    ¬ pollerRetriesSilently (responseAt (fun _ => runningSnapshot)
        (fun _ => false)) := by
  intro h
  have h0 := h 0 (by decide) (by decide)
  exact absurd h0 (by decide)

/-- Claim C3, amended: a transient failure of a single status request
aborts tracking: the tick whose fetch or parse throws clears the
interval, and the poller issues no status request at any later tick. -/
theorem trackReconstruction_stops_after_error
    (r : Nat → Option JobSnapshot) (n m : Nat)
    (hact : pollerActive r n = true) (herr : r n = none) (hm : n < m) :
    pollerActive r m = false := by
  have hstep : pollerActive r (n + 1) = false := by
    simp [pollerActive, hact, herr]
  exact pollerActive_stays_false r (n + 1) m (by omega) hstep

/-- Witness for the amended C3 theorem: a run whose first request
throws has stopped by tick 1. -/
theorem trackReconstruction_stops_after_error_witness :
    pollerActive (fun _ => (none : Option JobSnapshot)) 1 = false :=
  trackReconstruction_stops_after_error (fun _ => none) 0 1 rfl rfl
    (by decide)

/-- Claim C9: a status response whose `tools` object is empty makes the
all-terminal check vacuously true, so on that very tick the poller
stops and `showResults` runs, showing the results section (and nothing
else, since there are no tool entries). -/
theorem trackReconstruction_empty_tools_stops :
    allComplete emptySnapshot = true ∧
    pollerActive (responseAt (fun _ => emptySnapshot) (fun _ => true)) 1 =
      false ∧
    showResults emptySnapshot = [UIAction.showSection] := by
  refine ⟨rfl, by decide, rfl⟩

/-- Claim C4, counterexample: the claim says the error text of a failed
tool is surfaced verbatim.  On a terminal snapshot whose one tool is
`failed` with error `"boom"`, none of the texts the client writes (the
status words of the polling tick and the `showResults` outputs) is
`"boom"`: `showResults` only handles `completed` entries, and the
polling tick writes only `data.status`. -/
theorem showResults_drops_failed_error :
    ¬ surfacesFailedErrors failedSnapshot := by
  intro h
  have h1 : "boom" ∈ terminalTickTexts failedSnapshot := by
    refine h ("COLMAP", ⟨"failed", 80, "", some "boom", none, none, none⟩)
      ?_ rfl "boom" rfl
    simp [failedSnapshot]
  exact absurd h1 (by decide)

/-- Claim C4, amended: on a terminal snapshot, `showResults` surfaces,
for every tool with status `completed`, the output reference (handed to
`loadModel`) and the three metrics (point count, processing time,
memory used, with `N/A` fallbacks); every other action it emits is the
un-hiding of the results section, so failed tools get nothing — in
particular their `error` text is never surfaced. -/
theorem showResults_surfaces_completed_only (st : JobSnapshot) :
    (∀ p ∈ st.tools, p.2.status = "completed" →
      UIAction.loadModel p.1 p.2.output ∈ showResults st ∧
      UIAction.setMetric ("points-" ++ p.1) (jsOr p.2.metricsPoints "N/A") ∈
        showResults st ∧
      UIAction.setMetric ("time-" ++ p.1)
        (jsOr p.2.metricsProcessingTime "N/A") ∈ showResults st ∧
      UIAction.setMetric ("memory-" ++ p.1)
        (jsOr p.2.metricsMemoryUsed "N/A") ∈ showResults st) ∧
    (∀ a ∈ showResults st, a = UIAction.showSection ∨
      ∃ p ∈ st.tools, p.2.status = "completed" ∧ a ∈ showResultsEntry p) := by
  constructor
  · intro p hp hc
    have hmem : ∀ a ∈ showResultsEntry p, a ∈ showResults st := by
      intro a ha
      exact List.mem_cons_of_mem _ (List.mem_flatMap.mpr ⟨p, hp, ha⟩)
    refine ⟨hmem _ ?_, hmem _ ?_, hmem _ ?_, hmem _ ?_⟩ <;>
      simp [showResultsEntry, hc]
  · intro a ha
    rcases List.mem_cons.mp ha with h | h
    · exact Or.inl h
    · rcases List.mem_flatMap.mp h with ⟨p, hp, hap⟩
      have hc : p.2.status = "completed" := by
        by_contra hne
        simp [showResultsEntry, hne] at hap
      exact Or.inr ⟨p, hp, hc, hap⟩

/-- Witness for the amended C4 theorem: the completed COLMAP entry's
output reference is handed to the viewer. -/
theorem showResults_surfaces_completed_only_witness :
    UIAction.loadModel "COLMAP" "model.ply" ∈ showResults completedSnapshot :=
  ((showResults_surfaces_completed_only completedSnapshot).1
    ("COLMAP", ⟨"completed", 100, "model.ply", none, some "12345",
                some "10m", some "2GB"⟩)
    (by decide) rfl).1

/-- Claim C6, counterexample: the claim says a completed output path
ending in `.glb` dispatches to a loader.  But `Viewer3D.loadModel` only
dispatches `.ply` and `.obj`; a path ending in `.glb` reaches the
`'Unsupported file format'` branch. -/
theorem loadModel_glb_unsupported :
    strEndsWith "model.glb" ".glb" = true ∧
    loadModelDispatch "model.glb" = LoadDispatch.unsupportedFormat := by
  exact ⟨by decide, by decide⟩

/-- Claim C6, amended: for every output path ending in `.ply` or
`.obj`, `loadModel` dispatches to a loader (PLY or OBJ) and does not
reach the `'Unsupported file format'` branch; `.glb` is not among the
supported extensions. -/
theorem loadModel_dispatch_ply_obj (p : String)
    (h : strEndsWith p ".ply" = true ∨ strEndsWith p ".obj" = true) :
    loadModelDispatch p ≠ LoadDispatch.unsupportedFormat := by
  rcases h with h | h
  · simp [loadModelDispatch, h]
  · cases hply : strEndsWith p ".ply"
    · simp [loadModelDispatch, hply, h]
    · simp [loadModelDispatch, hply]

/-- Witness for the amended C6 theorem at the path `cloud.ply`. -/
theorem loadModel_dispatch_ply_obj_witness :
    loadModelDispatch "cloud.ply" ≠ LoadDispatch.unsupportedFormat :=
  loadModel_dispatch_ply_obj "cloud.ply" (Or.inl (by decide))

/-- Claim C7: if from some poll index on the job's reported status is
terminal (the spec's enforced wall-clock timeout guarantees every job
eventually reaches `completed` or `failed`, and terminal states are
absorbing), then the benchmark script's per-job polling loop
terminates, exiting with the job's terminal status recorded. -/
theorem benchmark_poll_terminates (resp : Nat → String)
    (h : ∃ N, ∀ n, N ≤ n → isTerminalStr (resp n) = true) :
    ∃ fuel s, runPoll resp fuel 0 = some s ∧ isTerminalStr s = true := by
  obtain ⟨N, hN⟩ := h
  obtain ⟨s, hs, ht⟩ :=
    runPoll_reaches_terminal resp N 0 (hN (0 + N) (by omega))
  exact ⟨N + 1, s, hs, ht⟩

/-- Witness for the C7 theorem on a job that reports `completed` from
the first poll on. -/
theorem benchmark_poll_terminates_witness :
    ∃ fuel s, runPoll (fun _ => "completed") fuel 0 = some s ∧
      isTerminalStr s = true :=
  benchmark_poll_terminates (fun _ => "completed") ⟨0, fun _ _ => rfl⟩

/-- Claim C8: `checkGPUStatus` displays `GPU: <name>` exactly when the
response's `available` field is true and `GPU: CPU Mode` exactly when
it is false, and the displayed text depends on no response field other
than `available` and `name`. -/
theorem checkGPUStatus_display (st : GpuStatusResponse) :
    (st.available = true →
      checkGPUStatusText st = "GPU: " ++ jsTemplateStr st.name) ∧
    (st.available = false → checkGPUStatusText st = "GPU: CPU Mode") ∧
    (∀ st2 : GpuStatusResponse, st.available = st2.available →
      st.name = st2.name → checkGPUStatusText st = checkGPUStatusText st2) := by
  refine ⟨fun h => ?_, fun h => ?_, fun st2 ha hn => ?_⟩
  · simp [checkGPUStatusText, h]
  · simp [checkGPUStatusText, h]
  · simp [checkGPUStatusText, ha, hn]

/-- Witness for the C8 theorem: a response with a GPU available and
extra fields present displays the GPU name. -/
theorem checkGPUStatus_display_witness :
    checkGPUStatusText ⟨true, some "NVIDIA RTX 4090", [("driver", "535")]⟩ =
      "GPU: NVIDIA RTX 4090" :=
  ((checkGPUStatus_display
      ⟨true, some "NVIDIA RTX 4090", [("driver", "535")]⟩).1 rfl).trans
    (by decide)

/-- Claim C10: after `updateUploadStatus`, the start-reconstruction
button is enabled (not disabled) iff at least one tool checkbox is
checked and either the upload widget holds at least one file or a
built-in dataset is selected. -/
theorem updateUploadStatus_enabled_iff (pondFiles : Option Nat)
    (selectedDataset : Option String) (selectedToolCount : Nat) :
    startDisabled pondFiles selectedDataset selectedToolCount = false ↔
      (0 < selectedToolCount ∧
        (pondHasFiles pondFiles = true ∨
          jsTruthyStr selectedDataset = true)) := by
  cases ha : pondHasFiles pondFiles <;>
    cases hb : jsTruthyStr selectedDataset <;>
      simp [startDisabled, hasImages, ha, hb, Nat.pos_iff_ne_zero]

/-- Witness for the C10 theorem: three files uploaded, no dataset, two
tools checked — the button is enabled. -/
theorem updateUploadStatus_enabled_iff_witness :
    startDisabled (some 3) none 2 = false :=
  (updateUploadStatus_enabled_iff (some 3) none 2).mpr
    ⟨by decide, Or.inl (by decide)⟩

/-- Claim C2 (spec-modelled, the Job Store / Reconstruction Service
backend is not in the repository snapshot): along every valid job
history, the status only moves forward (each consecutive pair of reads
is equal or related by a state-machine edge, and the lifecycle rank
never decreases), once terminal every later `getStatus` returns the
identical snapshot, and a terminal state is entered at most once. -/
theorem job_status_forward_terminal_once (tr : Nat → JobRec)
    (h : validTrace tr) :
    (∀ n, (tr n).status = (tr (n + 1)).status ∨
      statusEdge (tr n).status (tr (n + 1)).status = true) ∧
    (∀ n m, n ≤ m → statusRank (tr n).status ≤ statusRank (tr m).status) ∧
    (∀ n m, n ≤ m → isTerminalJ (tr n).status = true → tr m = tr n) ∧
    (∀ n m, entersTerminal tr n → entersTerminal tr m → n = m) := by
  have hstep : ∀ n, (tr n).status = (tr (n + 1)).status ∨
      statusEdge (tr n).status (tr (n + 1)).status = true := by
    intro n
    rcases h.2.2 n with heq | ⟨_, hs, _⟩
    · exact Or.inl (congrArg JobRec.status heq)
    · exact hs
  have hrank : ∀ n m, n ≤ m →
      statusRank (tr n).status ≤ statusRank (tr m).status := by
    intro n m hnm
    have key : ∀ k, statusRank (tr n).status ≤ statusRank (tr (n + k)).status := by
      intro k
      induction k with
      | zero => exact le_refl _
      | succ j ih =>
        refine le_trans ih ?_
        rw [Nat.add_succ]
        rcases hstep (n + j) with heq | hedge
        · rw [heq]
        · exact statusEdge_rank_le hedge
    have hm : m = n + (m - n) := by omega
    rw [hm]
    exact key _
  refine ⟨hstep, hrank, validTrace_terminal_frozen h, ?_⟩
  have key : ∀ i j, i < j → entersTerminal tr i → entersTerminal tr j →
      False := by
    intro i j hij hi hj
    have hfr : tr j = tr (i + 1) :=
      validTrace_terminal_frozen h (i + 1) j (by omega) hi.2
    obtain ⟨hj1, _⟩ := hj
    rw [hfr] at hj1
    exact Bool.noConfusion (hi.2.symm.trans hj1)
  intro n m hn hm
  rcases lt_trichotomy n m with hlt | heq | hgt
  · exact absurd (key n m hlt hn hm) (fun hf => hf)
  · exact heq
  · exact absurd (key m n hgt hm hn) (fun hf => hf)

/-- Witness for the C2 theorem: on the sample history the snapshot read
at poll 5 is identical to the terminal snapshot entered at poll 2. -/
theorem job_status_forward_terminal_once_witness :
    sampleTrace 5 = sampleTrace 2 :=
  (job_status_forward_terminal_once sampleTrace
      ⟨rfl, rfl, fun n =>
        match n with
        | 0 => by decide
        | 1 => by decide
        | _ + 2 => Or.inl rfl⟩).2.2.1 2 5 (by omega) (by decide)

/-- Claim C5 (spec-modelled, the backend is not in the repository
snapshot): along every valid job history the progress field is an
integer percentage between 0 and 100, and it is non-decreasing across
successive status reads made while the status is `running`. -/
theorem job_progress_bounds_monotone (tr : Nat → JobRec)
    (h : validTrace tr) :
    (∀ n, 0 ≤ (tr n).progress ∧ (tr n).progress ≤ 100) ∧
    (∀ n m, n ≤ m →
      (∀ k, n ≤ k → k ≤ m → (tr k).status = JStatus.running) →
      (tr n).progress ≤ (tr m).progress) := by
  constructor
  · intro n
    induction n with
    | zero => rw [h.2.1]; exact ⟨le_refl 0, by omega⟩
    | succ j ih =>
      rcases h.2.2 j with heq | ⟨_, _, hb1, hb2, _⟩
      · rw [← heq]; exact ih
      · exact ⟨hb1, hb2⟩
  · intro n m hnm hrun
    have key : ∀ d, n + d ≤ m → (tr n).progress ≤ (tr (n + d)).progress := by
      intro d
      induction d with
      | zero => intro _; exact le_refl _
      | succ j ih =>
        intro hle
        have hle2 : n + j ≤ m := by omega
        rcases h.2.2 (n + j) with heq | ⟨_, _, _, _, hmono⟩
        · rw [Nat.add_succ, ← heq]
          exact ih hle2
        · have h1 : (tr (n + j)).status = JStatus.running :=
            hrun (n + j) (by omega) hle2
          have h2 : (tr (n + j + 1)).status = JStatus.running :=
            hrun (n + j + 1) (by omega) (by omega)
          refine le_trans (ih hle2) ?_
          rw [Nat.add_succ]
          exact hmono h1 h2
    have hm : m = n + (m - n) := by omega
    rw [hm]
    exact key _ (by omega)

/-- Witness for the C5 theorem: on the sample history the progress read
while running is within 0..100. -/
theorem job_progress_bounds_monotone_witness :
    0 ≤ (sampleTrace 1).progress ∧ (sampleTrace 1).progress ≤ 100 :=
  (job_progress_bounds_monotone sampleTrace
      ⟨rfl, rfl, fun n =>
        match n with
        | 0 => by decide
        | 1 => by decide
        | _ + 2 => Or.inl rfl⟩).1 1

end Photogrammetry






